import Mathlib

set_option autoImplicit false

/-!
Verification development for the `cmp` repository: two data-acquisition
scripts (`pressure_test.py` and `bb_fill_sensor.py`) that poll a LabJack T7,
convert voltages to physical units, buffer samples, and write a delimited
file on exit.

The scripts are embedded shallowly:
* Python floats are modelled by exact rationals (`ℚ`); all the arithmetic the
  scripts perform on the modelled paths (`v / 5.0 * 3.2`, `30/50/1E-3`,
  `sampleRate * 1E-3`) is division/multiplication of decimal literals, which
  the embedding carries out exactly.
* The external world seen by one loop iteration is an `Event`: either a
  `tick` carrying the wall-clock reading `time.time() - tStart` and the
  voltages returned by `ljm.eReadNames`, or a `KeyboardInterrupt`, or any
  other exception raised inside the `try:` body.  The loop body is a step
  function on the loop state, and a run folds it over a finite event list.
* `np.savetxt(path, data, delimiter=',', header=header, comments='')` is
  modelled structurally: the written file is its list of header lines
  (the header string split on newlines, since `comments=''`) together with
  one row of cells per data row; per-cell decimal formatting is abstracted.
-/

namespace Cmp

/-- Split a character list at each newline character. -/
def splitNl : List Char → List (List Char)
  | [] => [[]]
  | c :: cs =>
    match splitNl cs with
    | [] => [[]]
    | l :: ls => if c = '\n' then [] :: l :: ls else (c :: l) :: ls

/-- The lines a string occupies when written to a text file (its content
split at newline characters). -/
def stringLines (s : String) : List String :=
  (splitNl s.data).map String.mk

/-- Structural model of the file produced by `np.savetxt(..., header=header,
comments='')`: the header lines followed by one row of numeric cells per
data row. -/
structure CsvFile where
  headerLines : List String
  rows : List (List ℚ)
  deriving DecidableEq

/-- Model of `np.savetxt(path, data, delimiter=',', header=header,
comments='')`: with `comments=''` the header string is written verbatim
followed by a newline, so the header occupies its newline-split lines in the
file; then one line per row of `data`. -/
def savetxt (data : List (List ℚ)) (header : String) : CsvFile :=
  { headerLines := stringLines header, rows := data }

/-- The number of comma-delimited cells a line of text holds: one more than
its number of `,` characters (the file is written with `delimiter=','`). -/
def cellCount (s : String) : ℕ :=
  (s.data.filter (fun c => c = ',')).length + 1

/-- Python `and` on strings: returns the left operand if it is falsy (the
empty string), otherwise the right operand.  In particular
`("Y" and "y")` evaluates to `"y"`. -/
def pyAnd (a b : String) : String :=
  if a = "" then a else b

/-- CPython `is` between a freshly constructed string (such as the result of
`input()`, decoded from the read bytes) and a string literal compiled into
the program.  The literal is an object the compiler interned; the decoder
returns a different object, even for an equal one-character string (on
CPython 3.11 the statically allocated one-character strings the decoder
hands back are distinct from the compiler's interned literals: `chr(121) is
'y'` is `False`, and piping `y` into `str(input()) is not ("Y" and "y")`
yields `True`).  So identity between a freshly read string and a literal
never holds, whatever the two strings' contents. -/
def pyIsFreshLit (_s _lit : String) : Bool :=
  false

end Cmp

namespace PressureTest

/-- Directory prepended to the data file name (`dataDirectory = "data/"`). -/
def dataDirectory : String := "data/"

/-- Default second argument: `sampleRate = 50` (ms). -/
def defaultSampleRate : ℚ := 50

/-- Default loop bound, computed from the *default* sample rate before any
argument is parsed: `loopAmount = 30/sampleRate/1E-3` with `sampleRate = 50`.
(The comment in the script calls this "Infinite loop", but it is a finite
number.) -/
def loopAmountDefault : ℚ := 30 / defaultSampleRate / (1 / 1000)

/-- Configuration after argument parsing.  `filenameSupplied` records whether
a first argument was given: the save step runs under
`filename is not "discard"`, which is `False` for the interned default
literal and `True` for any string freshly parsed from `sys.argv` (argv
strings are fresh multi-character objects, never the literal). -/
structure Config where
  filenameSupplied : Bool
  sampleRate : ℚ
  loopAmount : ℚ
  deriving DecidableEq

/-- Argument parsing: the optional second and third arguments are parsed with
`int(arg)`; `loopAmount` keeps its default (already computed from the default
sample rate) when no third argument is supplied, regardless of the second
argument. -/
def configOf (filenameArg : Option String) (sampleRateArg loopAmountArg : Option ℤ) :
    Config :=
  { filenameSupplied := filenameArg.isSome
  , sampleRate :=
      match sampleRateArg with
      | some r => (r : ℚ)
      | none => defaultSampleRate
  , loopAmount :=
      match loopAmountArg with
      | some n => (n : ℚ)
      | none => loopAmountDefault }

/-- One row of the data array: columns `[t, i, AIN0, pressure, AIN2, flow
rate]` (see the script's comment "columns: time, iteration, voltage,
pressure, voltage flow rate" and the `np.append` call). -/
structure Row where
  t : ℚ
  iter : ℚ
  ain0 : ℚ
  pressure : ℚ
  ain2 : ℚ
  flowRate : ℚ
  deriving DecidableEq

/-- The cells of a row in file/column order, as laid out by
`np.append(data, [[t, i, results[0], pressure, results[1], flowRate]], axis=0)`. -/
def rowCells (r : Row) : List ℚ :=
  [r.t, r.iter, r.ain0, r.pressure, r.ain2, r.flowRate]

/-- The placeholder row `np.zeros((1, 6))` the buffer starts with. -/
def zeroRow : Row :=
  ⟨0, 0, 0, 0, 0, 0⟩

/-- The external world seen by one iteration of the `while True:` loop. -/
inductive Event where
  | tick (t v0 v2 : ℚ)
  | interrupt
  | error (msg : String)
  deriving DecidableEq

/-- How the loop was left. `outOfEvents` means the finite synthetic event
list ran out while the loop would have kept going. -/
inductive ExitKind where
  | finished
  | interrupted
  | errored (msg : String)
  | outOfEvents
  deriving DecidableEq

/-- Mutable state of the read loop: `tLast` (last sampling time), the
iteration counter `i`, and the growing data array. -/
structure LoopState where
  tLast : ℚ
  i : ℕ
  data : List Row
  deriving DecidableEq

/-- Initial loop state: `tLast = 0`, `i = 0`, `data = np.zeros((1, 6))`. -/
def initState : LoopState :=
  ⟨0, 0, [zeroRow]⟩

/-- One iteration of the loop body.  On a tick: if `(t - tLast) > sampleRate*1E-3`
then `tLast = t`, the voltages are read, converted
(`pressure = results[0]/5.0*3.2`, `flowRate = results[1]/5.0*500`), the row
is appended and `i` incremented; then, since `loopAmount is not "infinite"`
always holds here (`loopAmount` is a number, never that string object), the
loop breaks when `i >= loopAmount`.  A `KeyboardInterrupt` or any other
exception breaks out of the loop via the `except` handlers. -/
def loopStep (cfg : Config) (s : LoopState) (e : Event) :
    LoopState × Option ExitKind :=
  match e with
  | .interrupt => (s, some .interrupted)
  | .error msg => (s, some (.errored msg))
  | .tick t v0 v2 =>
      if t - s.tLast > cfg.sampleRate * (1 / 1000) then
        let pressure := v0 / 5 * (32 / 10)
        let flowRate := v2 / 5 * 500
        let row : Row := ⟨t, (s.i : ℚ), v0, pressure, v2, flowRate⟩
        let s1 : LoopState := ⟨t, s.i + 1, s.data ++ [row]⟩
        if (s1.i : ℚ) ≥ cfg.loopAmount then (s1, some .finished) else (s1, none)
      else (s, none)

/-- Run the loop over a finite list of events, stopping at the first break
and returning the final state, the exit kind, and the unconsumed events. -/
def runLoop (cfg : Config) : LoopState → List Event → LoopState × ExitKind × List Event
  | s, [] => (s, .outOfEvents, [])
  | s, e :: es =>
      match loopStep cfg s e with
      | (s1, some k) => (s1, k, es)
      | (s1, none) => runLoop cfg s1 es

/-- First header line written to the csv file. -/
def dataLabels : String := "Time, AIN0, Pressure, AIN2, Flow Rate"

/-- Second header line written to the csv file. -/
def dataUnits : String := "[s], [V], [psi], [V], [SLPM]"

/-- The `header` argument passed to `np.savetxt`:
`'\n'.join([dataLabels, dataUnits])`. -/
def headerString : String := dataLabels ++ "\n" ++ dataUnits

/-- A row's derived columns carry the fixed calibrations applied in the loop
body: `pressure = results[0]/5.0*3.2` and `flowRate = results[1]/5.0*500`. -/
def Calibrated (r : Row) : Prop :=
  r.pressure = r.ain0 / 5 * (32 / 10) ∧ r.flowRate = r.ain2 / 5 * 500

/-- Loop invariant: the last buffered row's time is `tLast`; the buffer holds
`i + 1` rows (placeholder plus one per accepted sample); consecutive buffered
rows are more than `sampleRate*1E-3` apart; every buffered row is calibrated;
and row `j` of the buffer carries iteration number `j - 1` (the placeholder,
row `0`, carries `0`). -/
def Inv (cfg : Config) (s : LoopState) : Prop :=
  ((s.data.getLast?).getD zeroRow).t = s.tLast ∧
  s.data.length = s.i + 1 ∧
  List.Chain' (fun a b => b.t - a.t > cfg.sampleRate * (1 / 1000)) s.data ∧
  (∀ r ∈ s.data, Calibrated r) ∧
  (∀ j, j < s.data.length → (s.data.getD j zeroRow).iter = ((j - 1 : ℕ) : ℚ))

/-- Turn a synthetic (time, AIN0 voltage, AIN2 voltage) triple into a tick
event. -/
def tickOf (x : ℚ × ℚ × ℚ) : Event :=
  Event.tick x.1 x.2.1 x.2.2

/-- Observable outcome of one program run: how often `ljm.close(handle)` ran,
what the `except Exception` handler printed, the written file (if a first
argument was supplied), the final buffer, the final iteration counter (the
number of accepted samples), and how the loop exited. -/
structure ProgramResult where
  closeCalls : ℕ
  printedError : Option String
  fileWritten : Option Cmp.CsvFile
  finalData : List Row
  accepted : ℕ
  exitKind : ExitKind
  deriving DecidableEq

/-- The whole program after configuration: run the read loop, then the
straight-line cleanup section: `ljm.close(handle)` (once, unconditionally),
then `if filename is not "discard": np.savetxt(dataDirectory+filename+".csv",
data[1:, :], delimiter=',', header=header, comments='')`. -/
def runProgram (cfg : Config) (events : List Event) : ProgramResult :=
  let r := runLoop cfg initState events
  let s := r.1
  let k := r.2.1
  { closeCalls := 1
  , printedError := match k with | .errored msg => some msg | _ => none
  , fileWritten :=
      if cfg.filenameSupplied then
        some (Cmp.savetxt ((s.data.drop 1).map rowCells) headerString)
      else none
  , finalData := s.data
  , accepted := s.i
  , exitKind := k }

end PressureTest

namespace BBFillSensor

/-- Directory prepended to the *checked* data file name
(`dataDirectory = "data/"`). -/
def dataDirectory : String := "data/"

/-- Default second argument: `sampleRate = 10` (ms). -/
def defaultSampleRate : ℚ := 10

/-- The path whose existence `set_filename` tests:
`path.exists(dataDirectory+filename+".csv")`. -/
def checkedPath (filename : String) : String :=
  dataDirectory ++ filename ++ ".csv"

/-- The path `np.savetxt` actually writes to: `filename+".csv"` (no
directory). -/
def writePath (filename : String) : String :=
  filename ++ ".csv"

/-- Whether the pre-existing-file confirmation prompt is shown, given which
paths exist on disk: the prompt runs under
`if path.exists(dataDirectory+filename+".csv"):`. -/
def promptShown (onDisk : String → Bool) (filename : String) : Bool :=
  onDisk (checkedPath filename)

/-- The `set_filename` handler of `bb_fill_sensor.py`, given whether the
checked path exists and what the user answers at the prompt.  `none` models
`sys.exit()`; `some f` models returning the filename and proceeding.  The
test is `if response is not ("Y" and "y"): sys.exit()`: Python `and` makes
the literal operand `"y"`, and the identity test is `pyIsFreshLit`. -/
def set_filename (filename : String) (fileAtCheckedPath : Bool) (response : String) :
    Option String :=
  if fileAtCheckedPath then
    if Cmp.pyIsFreshLit response (Cmp.pyAnd "Y" "y") then some filename
    else none
  else some filename

/-- Configuration after argument parsing.  `loopAmount = none` models the
default, the string `"infinite"`: `loopAmount is not "infinite"` is then
`False` (both sides are the same interned literal), so the break check is
skipped and the loop is unbounded; with a third argument `loopAmount` is an
`int`, the identity test is `True`, and the break check runs. -/
structure Config where
  filenameSupplied : Bool
  sampleRate : ℚ
  loopAmount : Option ℚ
  deriving DecidableEq

/-- Argument parsing for `bb_fill_sensor.py`. -/
def configOf (filenameArg : Option String) (sampleRateArg loopAmountArg : Option ℤ) :
    Config :=
  { filenameSupplied := filenameArg.isSome
  , sampleRate :=
      match sampleRateArg with
      | some r => (r : ℚ)
      | none => defaultSampleRate
  , loopAmount := loopAmountArg.map (fun n => (n : ℚ)) }

/-- One row of the data array: columns `[t, AIN0, AIN1, AIN2, AIN3]`, as
laid out by `np.append(data, [[t, results[0], results[1], results[2],
results[3]]], axis=0)`. -/
structure Row where
  t : ℚ
  ain0 : ℚ
  ain1 : ℚ
  ain2 : ℚ
  ain3 : ℚ
  deriving DecidableEq

/-- The cells of a row in file/column order. -/
def rowCells (r : Row) : List ℚ :=
  [r.t, r.ain0, r.ain1, r.ain2, r.ain3]

/-- The placeholder row `np.zeros((1, 1+numFrames))` with `numFrames = 4`. -/
def zeroRow : Row :=
  ⟨0, 0, 0, 0, 0⟩

/-- The external world seen by one iteration of the `while True:` loop. -/
inductive Event where
  | tick (t v0 v1 v2 v3 : ℚ)
  | interrupt
  | error (msg : String)
  deriving DecidableEq

/-- How the loop was left. -/
inductive ExitKind where
  | finished
  | interrupted
  | errored (msg : String)
  | outOfEvents
  deriving DecidableEq

/-- Mutable state of the read loop: the iteration counter `i` and the growing
data array (there is no sample-rate gate in this script; pacing is done by
`ljm.waitForNextInterval`, which does not affect the recorded data). -/
structure LoopState where
  i : ℕ
  data : List Row
  deriving DecidableEq

/-- Initial loop state: `i = 0`, `data = np.zeros((1, 5))`. -/
def initState : LoopState :=
  ⟨0, [zeroRow]⟩

/-- One iteration of the loop body: every tick reads and appends a row and
increments `i`; if `loopAmount` is an `int` (not the default `"infinite"`),
the loop breaks when `i >= loopAmount`.  A `KeyboardInterrupt` or any other
exception breaks out of the loop via the `except` handlers. -/
def loopStep (cfg : Config) (s : LoopState) (e : Event) :
    LoopState × Option ExitKind :=
  match e with
  | .interrupt => (s, some .interrupted)
  | .error msg => (s, some (.errored msg))
  | .tick t v0 v1 v2 v3 =>
      let row : Row := ⟨t, v0, v1, v2, v3⟩
      let s1 : LoopState := ⟨s.i + 1, s.data ++ [row]⟩
      match cfg.loopAmount with
      | none => (s1, none)
      | some la => if (s1.i : ℚ) ≥ la then (s1, some .finished) else (s1, none)

/-- Run the loop over a finite list of events, stopping at the first break
and returning the final state, the exit kind, and the unconsumed events. -/
def runLoop (cfg : Config) : LoopState → List Event → LoopState × ExitKind × List Event
  | s, [] => (s, .outOfEvents, [])
  | s, e :: es =>
      match loopStep cfg s e with
      | (s1, some k) => (s1, k, es)
      | (s1, none) => runLoop cfg s1 es

/-- The channel names read in the loop. -/
def names : List String := ["AIN0", "AIN1", "AIN2", "AIN3"]

/-- First header line: `"Time, " + ", ".join(names)`. -/
def dataLabels : String := "Time, " ++ String.intercalate ", " names

/-- Second header line: `"[s], " + ", ".join(numFrames*["[V]"])`. -/
def dataUnits : String := "[s], " ++ String.intercalate ", " (List.replicate 4 "[V]")

/-- The `header` argument passed to `np.savetxt`:
`'\n'.join([dataLabels, dataUnits])`. -/
def headerString : String := dataLabels ++ "\n" ++ dataUnits

/-- Loop invariant: the buffer holds `i + 1` rows (placeholder plus one per
recorded sample). -/
def Inv (s : LoopState) : Prop :=
  s.data.length = s.i + 1

/-- Turn a synthetic (time, four voltages) tuple into a tick event. -/
def tickOf (x : ℚ × ℚ × ℚ × ℚ × ℚ) : Event :=
  Event.tick x.1 x.2.1 x.2.2.1 x.2.2.2.1 x.2.2.2.2

/-- Observable outcome of one program run (see
`PressureTest.ProgramResult`). -/
structure ProgramResult where
  closeCalls : ℕ
  printedError : Option String
  fileWritten : Option Cmp.CsvFile
  finalData : List Row
  accepted : ℕ
  exitKind : ExitKind
  deriving DecidableEq

/-- The whole program after configuration: run the read loop, then the
straight-line cleanup section: `ljm.cleanInterval`, `ljm.close(handle)`
(once, unconditionally), then `if filename is not "discard":
np.savetxt(filename+".csv", data[1:, :], delimiter=',', header=header,
comments='')`. -/
def runProgram (cfg : Config) (events : List Event) : ProgramResult :=
  let r := runLoop cfg initState events
  let s := r.1
  let k := r.2.1
  { closeCalls := 1
  , printedError := match k with | .errored msg => some msg | _ => none
  , fileWritten :=
      if cfg.filenameSupplied then
        some (Cmp.savetxt ((s.data.drop 1).map rowCells) headerString)
      else none
  , finalData := s.data
  , accepted := s.i
  , exitKind := k }

end BBFillSensor

namespace PressureTest

theorem inv_init (cfg : Config) : Inv cfg initState := by
  refine ⟨rfl, rfl, List.chain'_singleton _, ?_, ?_⟩
  · intro r hr
    simp only [initState, List.mem_singleton] at hr
    subst hr
    constructor <;> norm_num [zeroRow]
  · intro j hj
    have hj0 : j = 0 := by
      simp only [initState, List.length_singleton] at hj
      omega
    subst hj0
    simp [initState, zeroRow]

theorem inv_append_row (cfg : Config) (s : LoopState) (t v0 v2 : ℚ)
    (hgate : t - s.tLast > cfg.sampleRate * (1 / 1000)) (hs : Inv cfg s) :
    Inv cfg ⟨t, s.i + 1,
      s.data ++ [⟨t, (s.i : ℚ), v0, v0 / 5 * (32 / 10), v2, v2 / 5 * 500⟩]⟩ := by
  obtain ⟨hlast, hlen, hchain, hcal, hiter⟩ := hs
  refine ⟨?_, ?_, ?_, ?_, ?_⟩
  · simp [List.getLast?_concat]
  · simp [hlen]
  · rw [List.chain'_append]
    refine ⟨hchain, List.chain'_singleton _, ?_⟩
    intro x hx y hy
    simp only [List.head?_cons, Option.mem_def, Option.some.injEq] at hy
    subst hy
    have hx2 : x.t = s.tLast := by
      rw [← hlast, Option.mem_def.mp hx]
      rfl
    rw [hx2]
    exact hgate
  · intro r hr
    rcases List.mem_append.mp hr with h | h
    · exact hcal r h
    · simp only [List.mem_singleton] at h
      subst h
      exact ⟨rfl, rfl⟩
  · intro j hj
    simp only [List.length_append, List.length_singleton] at hj
    by_cases hcase : j < s.data.length
    · rw [List.getD_append _ _ _ _ hcase]
      exact hiter j hcase
    · have hje : j = s.data.length := by omega
      rw [List.getD_append_right _ _ _ _ (by omega)]
      have h0 : j - s.data.length = 0 := by omega
      rw [h0]
      have hji : j - 1 = s.i := by omega
      simp [hji]

theorem loopStep_inv (cfg : Config) (s : LoopState) (e : Event) (s1 : LoopState)
    (ok : Option ExitKind) (h : loopStep cfg s e = (s1, ok)) (hs : Inv cfg s) :
    Inv cfg s1 := by
  cases e with
  | interrupt =>
      simp only [loopStep, Prod.mk.injEq] at h
      rw [← h.1]
      exact hs
  | error msg =>
      simp only [loopStep, Prod.mk.injEq] at h
      rw [← h.1]
      exact hs
  | tick t v0 v2 =>
      simp only [loopStep] at h
      split at h
      case isTrue hgate =>
        split at h <;>
          (simp only [Prod.mk.injEq] at h
           rw [← h.1]
           exact inv_append_row cfg s t v0 v2 hgate hs)
      case isFalse =>
        simp only [Prod.mk.injEq] at h
        rw [← h.1]
        exact hs

theorem loopStep_exit_ne (cfg : Config) (s : LoopState) (e : Event)
    (s1 : LoopState) (k : ExitKind) (h : loopStep cfg s e = (s1, some k)) :
    k ≠ ExitKind.outOfEvents := by
  intro hk
  subst hk
  cases e with
  | interrupt => simp [loopStep] at h
  | error msg => simp [loopStep] at h
  | tick t v0 v2 =>
      simp only [loopStep] at h
      split at h
      · split at h <;> simp at h
      · simp at h

theorem runLoop_inv (cfg : Config) :
    ∀ (events : List Event) (s s1 : LoopState) (k : ExitKind) (rest : List Event),
      runLoop cfg s events = (s1, k, rest) → Inv cfg s → Inv cfg s1 := by
  intro events
  induction events with
  | nil =>
      intro s s1 k rest h hs
      simp only [runLoop, Prod.mk.injEq] at h
      rw [← h.1]
      exact hs
  | cons e es ih =>
      intro s s1 k rest h hs
      simp only [runLoop] at h
      rcases hstep : loopStep cfg s e with ⟨s2, ok⟩
      have hs2 := loopStep_inv cfg s e s2 ok hstep hs
      cases ok with
      | some k2 =>
          simp only [hstep, Prod.mk.injEq] at h
          rw [← h.1]
          exact hs2
      | none =>
          rw [hstep] at h
          exact ih s2 s1 k rest h hs2

theorem runLoop_append (cfg : Config) (es : List Event) :
    ∀ (front : List Event) (s s1 : LoopState),
      runLoop cfg s front = (s1, ExitKind.outOfEvents, []) →
      runLoop cfg s (front ++ es) = runLoop cfg s1 es := by
  intro front
  induction front with
  | nil =>
      intro s s1 h
      simp only [runLoop, Prod.mk.injEq] at h
      rw [List.nil_append, h.1]
  | cons e front ih =>
      intro s s1 h
      simp only [runLoop, List.cons_append] at h ⊢
      rcases hstep : loopStep cfg s e with ⟨s2, ok⟩
      cases ok with
      | some k2 =>
          simp only [hstep, Prod.mk.injEq] at h
          exact absurd h.2.1 (loopStep_exit_ne cfg s e s2 k2 hstep)
      | none =>
          rw [hstep] at h
          exact ih s2 s1 h

end PressureTest

namespace PressureTest

/-- Running the loop on tick events whose timestamps each clear the
sample-rate gate: with `loopAmount` an integer `N` above the current counter
and at least `N - i` ticks available, the loop stops with `break` at the
`N`-th accepted sample, leaving the later ticks unconsumed. -/
theorem runLoop_ticks (cfg : Config) (N : ℕ) (hla : cfg.loopAmount = (N : ℚ)) :
    ∀ (ts : List (ℚ × ℚ × ℚ)) (s : LoopState),
      s.i < N → N ≤ s.i + ts.length →
      List.Chain' (fun a b => b - a > cfg.sampleRate * (1 / 1000))
        (s.tLast :: ts.map (fun x => x.1)) →
      ∃ s1, runLoop cfg s (ts.map tickOf) =
          (s1, ExitKind.finished, (ts.drop (N - s.i)).map tickOf) ∧
        s1.i = N ∧ s1.data.length = s.data.length + (N - s.i) := by
  intro ts
  induction ts with
  | nil =>
      intro s hi hlen _
      exfalso
      simp only [List.length_nil, Nat.add_zero] at hlen
      omega
  | cons x ts ih =>
      intro s hi hlen hchain
      simp only [List.map_cons, List.chain'_cons] at hchain
      obtain ⟨hrel, hchain2⟩ := hchain
      simp only [List.map_cons, runLoop, loopStep, tickOf]
      rw [if_pos hrel, hla]
      by_cases hcase : s.i + 1 = N
      · have hge : ((s.i + 1 : ℕ) : ℚ) ≥ (N : ℚ) := by
          exact_mod_cast Nat.le_of_eq hcase.symm
        rw [if_pos hge]
        have h1 : N - s.i = 1 := by omega
        rw [h1, List.drop_one, List.tail_cons]
        refine ⟨_, rfl, hcase, ?_⟩
        simp only [List.length_append, List.length_singleton]
      · have hlt : s.i + 1 < N := by omega
        have hge : ¬ ((s.i + 1 : ℕ) : ℚ) ≥ (N : ℚ) := by
          exact_mod_cast Nat.not_le.mpr hlt
        rw [if_neg hge]
        have hlen2 : N ≤ (s.i + 1) + ts.length := by
          simp only [List.length_cons] at hlen
          omega
        obtain ⟨s1, heq, hi1, hlen1⟩ :=
          ih ⟨x.1, s.i + 1, s.data ++ [⟨x.1, (s.i : ℚ), x.2.1,
            x.2.1 / 5 * (32 / 10), x.2.2, x.2.2 / 5 * 500⟩]⟩ hlt hlen2 (by simpa using hchain2)
        refine ⟨s1, ?_, hi1, ?_⟩
        · have hsub : N - s.i = (N - (s.i + 1)) + 1 := by omega
          rw [hsub, List.drop_succ_cons]
          exact heq
        · simp only [List.length_append, List.length_singleton] at hlen1
          rw [hlen1]
          omega

end PressureTest

namespace BBFillSensor

theorem bb_inv_init : Inv initState := rfl

theorem bb_loopStep_inv (cfg : Config) (s : LoopState) (e : Event) (s1 : LoopState)
    (ok : Option ExitKind) (h : loopStep cfg s e = (s1, ok)) (hs : Inv s) :
    Inv s1 := by
  cases e with
  | interrupt =>
      simp only [loopStep, Prod.mk.injEq] at h
      rw [← h.1]
      exact hs
  | error msg =>
      simp only [loopStep, Prod.mk.injEq] at h
      rw [← h.1]
      exact hs
  | tick t v0 v1 v2 v3 =>
      simp only [loopStep] at h
      have hgrow : ∀ s2 : LoopState,
          s2 = (⟨s.i + 1, s.data ++ [⟨t, v0, v1, v2, v3⟩]⟩ : LoopState) → Inv s2 := by
        intro s2 hs2
        subst hs2
        simp only [Inv, List.length_append, List.length_singleton]
        rw [hs]
      cases hla : cfg.loopAmount with
      | none =>
          simp only [hla, Prod.mk.injEq] at h
          exact hgrow s1 h.1.symm
      | some la =>
          simp only [hla] at h
          split at h <;>
            (simp only [Prod.mk.injEq] at h
             exact hgrow s1 h.1.symm)

theorem bb_loopStep_exit_ne (cfg : Config) (s : LoopState) (e : Event)
    (s1 : LoopState) (k : ExitKind) (h : loopStep cfg s e = (s1, some k)) :
    k ≠ ExitKind.outOfEvents := by
  intro hk
  subst hk
  cases e with
  | interrupt => simp [loopStep] at h
  | error msg => simp [loopStep] at h
  | tick t v0 v1 v2 v3 =>
      simp only [loopStep] at h
      cases hla : cfg.loopAmount with
      | none =>
          simp [hla] at h
      | some la =>
          simp only [hla] at h
          split at h <;> simp at h

theorem bb_runLoop_inv (cfg : Config) :
    ∀ (events : List Event) (s s1 : LoopState) (k : ExitKind) (rest : List Event),
      runLoop cfg s events = (s1, k, rest) → Inv s → Inv s1 := by
  intro events
  induction events with
  | nil =>
      intro s s1 k rest h hs
      simp only [runLoop, Prod.mk.injEq] at h
      rw [← h.1]
      exact hs
  | cons e es ih =>
      intro s s1 k rest h hs
      simp only [runLoop] at h
      rcases hstep : loopStep cfg s e with ⟨s2, ok⟩
      have hs2 := bb_loopStep_inv cfg s e s2 ok hstep hs
      cases ok with
      | some k2 =>
          simp only [hstep, Prod.mk.injEq] at h
          rw [← h.1]
          exact hs2
      | none =>
          rw [hstep] at h
          exact ih s2 s1 k rest h hs2

theorem bb_runLoop_append (cfg : Config) (es : List Event) :
    ∀ (front : List Event) (s s1 : LoopState),
      runLoop cfg s front = (s1, ExitKind.outOfEvents, []) →
      runLoop cfg s (front ++ es) = runLoop cfg s1 es := by
  intro front
  induction front with
  | nil =>
      intro s s1 h
      simp only [runLoop, Prod.mk.injEq] at h
      rw [List.nil_append, h.1]
  | cons e front ih =>
      intro s s1 h
      simp only [runLoop, List.cons_append] at h ⊢
      rcases hstep : loopStep cfg s e with ⟨s2, ok⟩
      cases ok with
      | some k2 =>
          simp only [hstep, Prod.mk.injEq] at h
          exact absurd h.2.1 (bb_loopStep_exit_ne cfg s e s2 k2 hstep)
      | none =>
          rw [hstep] at h
          exact ih s2 s1 h

/-- With a third argument `N`, every iteration records a sample and the loop
stops with `break` at the `N`-th one. -/
theorem bb_runLoop_ticks (cfg : Config) (N : ℕ) (hla : cfg.loopAmount = some (N : ℚ)) :
    ∀ (ts : List (ℚ × ℚ × ℚ × ℚ × ℚ)) (s : LoopState),
      s.i < N → N ≤ s.i + ts.length →
      ∃ s1, runLoop cfg s (ts.map tickOf) =
          (s1, ExitKind.finished, (ts.drop (N - s.i)).map tickOf) ∧
        s1.i = N ∧ s1.data.length = s.data.length + (N - s.i) := by
  intro ts
  induction ts with
  | nil =>
      intro s hi hlen
      exfalso
      simp only [List.length_nil, Nat.add_zero] at hlen
      omega
  | cons x ts ih =>
      intro s hi hlen
      simp only [List.map_cons, runLoop, loopStep, tickOf, hla]
      by_cases hcase : s.i + 1 = N
      · have hge : ((s.i + 1 : ℕ) : ℚ) ≥ (N : ℚ) := by
          exact_mod_cast Nat.le_of_eq hcase.symm
        rw [if_pos hge]
        have h1 : N - s.i = 1 := by omega
        rw [h1, List.drop_one, List.tail_cons]
        refine ⟨_, rfl, hcase, ?_⟩
        simp only [List.length_append, List.length_singleton]
      · have hlt : s.i + 1 < N := by omega
        have hge : ¬ ((s.i + 1 : ℕ) : ℚ) ≥ (N : ℚ) := by
          exact_mod_cast Nat.not_le.mpr hlt
        rw [if_neg hge]
        have hlen2 : N ≤ (s.i + 1) + ts.length := by
          simp only [List.length_cons] at hlen
          omega
        obtain ⟨s1, heq, hi1, hlen1⟩ :=
          ih ⟨s.i + 1, s.data ++ [⟨x.1, x.2.1, x.2.2.1, x.2.2.2.1, x.2.2.2.2⟩]⟩ hlt hlen2
        refine ⟨s1, ?_, hi1, ?_⟩
        · have hsub : N - s.i = (N - (s.i + 1)) + 1 := by omega
          rw [hsub, List.drop_succ_cons]
          exact heq
        · simp only [List.length_append, List.length_singleton] at hlen1
          rw [hlen1]
          omega

end BBFillSensor

namespace PressureTest

/-- Unfolding `runProgram` once the loop's outcome is known. -/
theorem runProgram_eq (cfg : Config) (events : List Event) (s1 : LoopState)
    (k : ExitKind) (rest : List Event)
    (h : runLoop cfg initState events = (s1, k, rest)) :
    runProgram cfg events =
      { closeCalls := 1
      , printedError := match k with | ExitKind.errored msg => some msg | _ => none
      , fileWritten :=
          if cfg.filenameSupplied then
            some (Cmp.savetxt ((s1.data.drop 1).map rowCells) headerString)
          else none
      , finalData := s1.data
      , accepted := s1.i
      , exitKind := k } := by
  cases k <;> simp only [runProgram, h]

end PressureTest

namespace BBFillSensor

/-- Unfolding `runProgram` once the loop's outcome is known. -/
theorem bb_runProgram_eq (cfg : Config) (events : List Event) (s1 : LoopState)
    (k : ExitKind) (rest : List Event)
    (h : runLoop cfg initState events = (s1, k, rest)) :
    runProgram cfg events =
      { closeCalls := 1
      , printedError := match k with | ExitKind.errored msg => some msg | _ => none
      , fileWritten :=
          if cfg.filenameSupplied then
            some (Cmp.savetxt ((s1.data.drop 1).map rowCells) headerString)
          else none
      , finalData := s1.data
      , accepted := s1.i
      , exitKind := k } := by
  cases k <;> simp only [runProgram, h]

end BBFillSensor

/-- Timestamps `0, 1, 2, ...` always clear a `50 ms` sample-rate gate:
consecutive entries differ by `1 > 50*1E-3`. -/
theorem chain_unit_gaps (n : ℕ) :
    List.Chain' (fun a b : ℚ => b - a > 50 * (1 / 1000))
      ((0 : ℚ) :: (List.range n).map (fun (j : ℕ) => (j : ℚ) + 1)) := by
  have hrw : ((0 : ℚ) :: (List.range n).map (fun (j : ℕ) => (j : ℚ) + 1)) =
      (List.range (n + 1)).map (fun (j : ℕ) => (j : ℚ)) := by
    rw [List.range_succ_eq_map, List.map_cons, List.map_map]
    simp [Function.comp_def]
  rw [hrw, List.chain'_map, List.chain'_range_succ]
  intro m hm
  push_cast
  norm_num

/-- C1 (pressure_test): for every voltage read from the device, the derived
values appended to the record equal voltage/reference*scale exactly with the
fixed calibration constants: pressure = AIN0 voltage / 5.0 * 3.2 (psi) and
flow rate = AIN2 voltage / 5.0 * 500 (SLPM); the raw voltage is stored in the
same record. -/
theorem claim_C1 (cfg : PressureTest.Config) (events : List PressureTest.Event)
    (r : PressureTest.Row)
    (hr : r ∈ (PressureTest.runProgram cfg events).finalData.drop 1) :
    r.pressure = r.ain0 / 5 * (32 / 10) ∧ r.flowRate = r.ain2 / 5 * 500 := by
  rcases hrun : PressureTest.runLoop cfg PressureTest.initState events with ⟨s1, k, rest⟩
  have hinv := PressureTest.runLoop_inv cfg events PressureTest.initState s1 k rest hrun
    (PressureTest.inv_init cfg)
  rw [PressureTest.runProgram_eq cfg events s1 k rest hrun] at hr
  exact hinv.2.2.2.1 r (List.mem_of_mem_drop hr)

/-- Witness for C1 at a concrete run: one tick at time 1 s with 2 V on AIN0
and 3 V on AIN2. -/
theorem claim_C1_witness :
    ((⟨1, 0, 2, 2 / 5 * (32 / 10), 3, 3 / 5 * 500⟩ : PressureTest.Row) ∈
      (PressureTest.runProgram (PressureTest.configOf (some "out") none none)
        [PressureTest.Event.tick 1 2 3]).finalData.drop 1) ∧
    ((⟨1, 0, 2, 2 / 5 * (32 / 10), 3, 3 / 5 * 500⟩ : PressureTest.Row).pressure =
        (⟨1, 0, 2, 2 / 5 * (32 / 10), 3, 3 / 5 * 500⟩ : PressureTest.Row).ain0 / 5 * (32 / 10) ∧
      (⟨1, 0, 2, 2 / 5 * (32 / 10), 3, 3 / 5 * 500⟩ : PressureTest.Row).flowRate =
        (⟨1, 0, 2, 2 / 5 * (32 / 10), 3, 3 / 5 * 500⟩ : PressureTest.Row).ain2 / 5 * 500) := by
  have hmem : (⟨1, 0, 2, 2 / 5 * (32 / 10), 3, 3 / 5 * 500⟩ : PressureTest.Row) ∈
      (PressureTest.runProgram (PressureTest.configOf (some "out") none none)
        [PressureTest.Event.tick 1 2 3]).finalData.drop 1 := by
    norm_num [PressureTest.runProgram, PressureTest.runLoop, PressureTest.loopStep,
      PressureTest.initState, PressureTest.configOf, PressureTest.loopAmountDefault,
      PressureTest.defaultSampleRate]
  exact ⟨hmem, claim_C1 _ _ _ hmem⟩

/-- C2: in every run where an output name was supplied, the written file has
exactly 2 header lines and exactly one data row per accepted sample (the
placeholder row is excluded); this holds for both scripts. -/
theorem claim_C2 :
    (∀ (cfg : PressureTest.Config) (events : List PressureTest.Event),
      cfg.filenameSupplied = true →
      ∃ f, (PressureTest.runProgram cfg events).fileWritten = some f ∧
        f.headerLines.length = 2 ∧
        f.rows.length = (PressureTest.runProgram cfg events).accepted) ∧
    (∀ (cfg : BBFillSensor.Config) (events : List BBFillSensor.Event),
      cfg.filenameSupplied = true →
      ∃ f, (BBFillSensor.runProgram cfg events).fileWritten = some f ∧
        f.headerLines.length = 2 ∧
        f.rows.length = (BBFillSensor.runProgram cfg events).accepted) := by
  constructor
  · intro cfg events hfn
    rcases hrun : PressureTest.runLoop cfg PressureTest.initState events with ⟨s1, k, rest⟩
    have hinv := PressureTest.runLoop_inv cfg events PressureTest.initState s1 k rest hrun
      (PressureTest.inv_init cfg)
    rw [PressureTest.runProgram_eq cfg events s1 k rest hrun]
    refine ⟨Cmp.savetxt ((s1.data.drop 1).map PressureTest.rowCells)
      PressureTest.headerString, ?_, ?_, ?_⟩
    · simp [hfn]
    · show (Cmp.stringLines PressureTest.headerString).length = 2
      decide
    · show ((s1.data.drop 1).map PressureTest.rowCells).length = s1.i
      have hlen := hinv.2.1
      simp only [List.length_map, List.length_drop]
      omega
  · intro cfg events hfn
    rcases hrun : BBFillSensor.runLoop cfg BBFillSensor.initState events with ⟨s1, k, rest⟩
    have hinv := BBFillSensor.bb_runLoop_inv cfg events BBFillSensor.initState s1 k rest hrun
      BBFillSensor.bb_inv_init
    rw [BBFillSensor.bb_runProgram_eq cfg events s1 k rest hrun]
    refine ⟨Cmp.savetxt ((s1.data.drop 1).map BBFillSensor.rowCells)
      BBFillSensor.headerString, ?_, ?_, ?_⟩
    · simp [hfn]
    · show (Cmp.stringLines BBFillSensor.headerString).length = 2
      decide
    · show ((s1.data.drop 1).map BBFillSensor.rowCells).length = s1.i
      have hlen : s1.data.length = s1.i + 1 := hinv
      simp only [List.length_map, List.length_drop]
      omega

/-- Witness for C2: both scripts with an output name supplied and an empty
run. -/
theorem claim_C2_witness :
    (∃ f, (PressureTest.runProgram (PressureTest.configOf (some "out") none none)
        []).fileWritten = some f ∧
      f.headerLines.length = 2 ∧
      f.rows.length = (PressureTest.runProgram
        (PressureTest.configOf (some "out") none none) []).accepted) ∧
    (∃ f, (BBFillSensor.runProgram (BBFillSensor.configOf (some "out") none none)
        []).fileWritten = some f ∧
      f.headerLines.length = 2 ∧
      f.rows.length = (BBFillSensor.runProgram
        (BBFillSensor.configOf (some "out") none none) []).accepted) :=
  ⟨claim_C2.1 _ [] rfl, claim_C2.2 _ [] rfl⟩

/-- C3: with a positive third argument N and synthetic timestamps that keep
clearing the sample-rate gate (trivially so for bb_fill_sensor, which has no
gate), the loop breaks after accepting exactly N samples. -/
theorem claim_C3 :
    (∀ (N : ℕ) (fnArg : Option String) (srArg : Option ℤ) (ts : List (ℚ × ℚ × ℚ)),
      0 < N → N ≤ ts.length →
      List.Chain'
        (fun a b => b - a >
          (PressureTest.configOf fnArg srArg (some (N : ℤ))).sampleRate * (1 / 1000))
        (0 :: ts.map (fun x => x.1)) →
      (PressureTest.runProgram (PressureTest.configOf fnArg srArg (some (N : ℤ)))
          (ts.map PressureTest.tickOf)).exitKind = PressureTest.ExitKind.finished ∧
      (PressureTest.runProgram (PressureTest.configOf fnArg srArg (some (N : ℤ)))
          (ts.map PressureTest.tickOf)).accepted = N) ∧
    (∀ (N : ℕ) (fnArg : Option String) (srArg : Option ℤ)
        (ts : List (ℚ × ℚ × ℚ × ℚ × ℚ)),
      0 < N → N ≤ ts.length →
      (BBFillSensor.runProgram (BBFillSensor.configOf fnArg srArg (some (N : ℤ)))
          (ts.map BBFillSensor.tickOf)).exitKind = BBFillSensor.ExitKind.finished ∧
      (BBFillSensor.runProgram (BBFillSensor.configOf fnArg srArg (some (N : ℤ)))
          (ts.map BBFillSensor.tickOf)).accepted = N) := by
  constructor
  · intro N fnArg srArg ts hN hlen hchain
    have hla : (PressureTest.configOf fnArg srArg (some (N : ℤ))).loopAmount = (N : ℚ) := by
      simp [PressureTest.configOf]
    obtain ⟨s1, heq, hi1, -⟩ :=
      PressureTest.runLoop_ticks _ N hla ts PressureTest.initState
        (by simpa [PressureTest.initState] using hN)
        (by simpa [PressureTest.initState] using hlen)
        hchain
    rw [PressureTest.runProgram_eq _ _ s1 _ _ heq]
    exact ⟨rfl, hi1⟩
  · intro N fnArg srArg ts hN hlen
    have hla : (BBFillSensor.configOf fnArg srArg (some (N : ℤ))).loopAmount =
        some (N : ℚ) := by
      simp [BBFillSensor.configOf]
    obtain ⟨s1, heq, hi1, -⟩ :=
      BBFillSensor.bb_runLoop_ticks _ N hla ts BBFillSensor.initState
        (by simpa [BBFillSensor.initState] using hN)
        (by simpa [BBFillSensor.initState] using hlen)
    rw [BBFillSensor.bb_runProgram_eq _ _ s1 _ _ heq]
    exact ⟨rfl, hi1⟩

/-- Witness for C3: N = 2 with two gate-clearing ticks for each script. -/
theorem claim_C3_witness :
    (PressureTest.runProgram (PressureTest.configOf none none (some ((2 : ℕ) : ℤ)))
      ([((1 : ℚ), (0 : ℚ), (0 : ℚ)), ((2 : ℚ), (0 : ℚ), (0 : ℚ))].map
        PressureTest.tickOf)).accepted = 2 ∧
    (BBFillSensor.runProgram (BBFillSensor.configOf none none (some ((2 : ℕ) : ℤ)))
      ([((1 : ℚ), (0 : ℚ), (0 : ℚ), (0 : ℚ), (0 : ℚ)),
        ((2 : ℚ), (0 : ℚ), (0 : ℚ), (0 : ℚ), (0 : ℚ))].map
        BBFillSensor.tickOf)).accepted = 2 := by
  constructor
  · refine (claim_C3.1 2 none none _ (by norm_num) (by norm_num) ?_).2
    norm_num [PressureTest.configOf, PressureTest.defaultSampleRate,
      List.chain'_cons, List.chain'_singleton]
  · exact (claim_C3.2 2 none none _ (by norm_num) (by norm_num)).2

/-- C4 (pressure_test): a record is appended only when the gate
`(t - tLast) > sampleRate*1E-3` passes, so consecutive buffered records'
timestamps differ by more than the sample period, and in particular any two
consecutive accepted samples are at least the sample period apart. -/
theorem claim_C4 (cfg : PressureTest.Config) (events : List PressureTest.Event) :
    List.Chain' (fun a b => b.t - a.t > cfg.sampleRate * (1 / 1000))
      (PressureTest.runProgram cfg events).finalData ∧
    List.Chain' (fun a b => b.t - a.t ≥ cfg.sampleRate * (1 / 1000))
      ((PressureTest.runProgram cfg events).finalData.drop 1) := by
  rcases hrun : PressureTest.runLoop cfg PressureTest.initState events with ⟨s1, k, rest⟩
  have hinv := PressureTest.runLoop_inv cfg events PressureTest.initState s1 k rest hrun
    (PressureTest.inv_init cfg)
  rw [PressureTest.runProgram_eq cfg events s1 k rest hrun]
  have hchain := hinv.2.2.1
  constructor
  · exact hchain
  · rw [List.drop_one]
    exact List.Chain'.imp (fun a b h => le_of_lt h) hchain.tail

/-- C5: on each modelled exit path (normal completion, interrupt during the
loop, exception from a read, all covered by quantifying over event lists)
`ljm.close(handle)` runs exactly once, and if an output name was supplied the
file is written with exactly the samples collected so far; the third part
pins this down for an interrupt arriving after any prefix of the run. -/
theorem claim_C5 :
    (∀ (cfg : PressureTest.Config) (events : List PressureTest.Event),
      (PressureTest.runProgram cfg events).closeCalls = 1 ∧
      (cfg.filenameSupplied = true →
        ∃ f, (PressureTest.runProgram cfg events).fileWritten = some f ∧
          f.rows = ((PressureTest.runProgram cfg events).finalData.drop 1).map
            PressureTest.rowCells)) ∧
    (∀ (cfg : BBFillSensor.Config) (events : List BBFillSensor.Event),
      (BBFillSensor.runProgram cfg events).closeCalls = 1 ∧
      (cfg.filenameSupplied = true →
        ∃ f, (BBFillSensor.runProgram cfg events).fileWritten = some f ∧
          f.rows = ((BBFillSensor.runProgram cfg events).finalData.drop 1).map
            BBFillSensor.rowCells)) ∧
    (∀ (cfg : PressureTest.Config) (front rest : List PressureTest.Event)
        (s1 : PressureTest.LoopState),
      PressureTest.runLoop cfg PressureTest.initState front =
        (s1, PressureTest.ExitKind.outOfEvents, []) →
      (PressureTest.runProgram cfg
        (front ++ PressureTest.Event.interrupt :: rest)).closeCalls = 1 ∧
      (PressureTest.runProgram cfg
        (front ++ PressureTest.Event.interrupt :: rest)).exitKind =
        PressureTest.ExitKind.interrupted ∧
      (PressureTest.runProgram cfg
        (front ++ PressureTest.Event.interrupt :: rest)).finalData = s1.data) := by
  refine ⟨?_, ?_, ?_⟩
  · intro cfg events
    refine ⟨rfl, fun hfn => ⟨Cmp.savetxt
      (((PressureTest.runProgram cfg events).finalData.drop 1).map PressureTest.rowCells)
      PressureTest.headerString, ?_, rfl⟩⟩
    simp [PressureTest.runProgram, hfn]
  · intro cfg events
    refine ⟨rfl, fun hfn => ⟨Cmp.savetxt
      (((BBFillSensor.runProgram cfg events).finalData.drop 1).map BBFillSensor.rowCells)
      BBFillSensor.headerString, ?_, rfl⟩⟩
    simp [BBFillSensor.runProgram, hfn]
  · intro cfg front rest s1 hfront
    have hrun : PressureTest.runLoop cfg PressureTest.initState
        (front ++ PressureTest.Event.interrupt :: rest) =
        (s1, PressureTest.ExitKind.interrupted, rest) := by
      rw [PressureTest.runLoop_append cfg (PressureTest.Event.interrupt :: rest) front
        PressureTest.initState s1 hfront]
      simp [PressureTest.runLoop, PressureTest.loopStep]
    rw [PressureTest.runProgram_eq cfg _ s1 _ _ hrun]
    exact ⟨rfl, rfl, rfl⟩

/-- Witness for C5: an output name supplied to each script, and an interrupt
as the very first loop event for pressure_test. -/
theorem claim_C5_witness :
    (∃ f, (PressureTest.runProgram (PressureTest.configOf (some "out") none none)
        []).fileWritten = some f ∧
      f.rows = ((PressureTest.runProgram (PressureTest.configOf (some "out") none none)
        []).finalData.drop 1).map PressureTest.rowCells) ∧
    (∃ f, (BBFillSensor.runProgram (BBFillSensor.configOf (some "out") none none)
        []).fileWritten = some f ∧
      f.rows = ((BBFillSensor.runProgram (BBFillSensor.configOf (some "out") none none)
        []).finalData.drop 1).map BBFillSensor.rowCells) ∧
    (PressureTest.runProgram (PressureTest.configOf (some "out") none none)
      ([] ++ PressureTest.Event.interrupt :: [])).exitKind =
      PressureTest.ExitKind.interrupted :=
  ⟨(claim_C5.1 _ []).2 rfl, (claim_C5.2.1 _ []).2 rfl,
    (claim_C5.2.2 _ [] [] PressureTest.initState rfl).2.1⟩

/-- C6: an exception other than KeyboardInterrupt raised inside the read loop
is caught, its message printed, the loop left immediately with the remaining
events unprocessed (no retry), the buffer kept as it was, and cleanup
(`ljm.close`) still runs; both scripts. -/
theorem claim_C6 :
    (∀ (cfg : PressureTest.Config) (front rest : List PressureTest.Event)
        (msg : String) (s1 : PressureTest.LoopState),
      PressureTest.runLoop cfg PressureTest.initState front =
        (s1, PressureTest.ExitKind.outOfEvents, []) →
      PressureTest.runLoop cfg PressureTest.initState
          (front ++ PressureTest.Event.error msg :: rest) =
        (s1, PressureTest.ExitKind.errored msg, rest) ∧
      (PressureTest.runProgram cfg
        (front ++ PressureTest.Event.error msg :: rest)).printedError = some msg ∧
      (PressureTest.runProgram cfg
        (front ++ PressureTest.Event.error msg :: rest)).closeCalls = 1 ∧
      (PressureTest.runProgram cfg
        (front ++ PressureTest.Event.error msg :: rest)).finalData = s1.data) ∧
    (∀ (cfg : BBFillSensor.Config) (front rest : List BBFillSensor.Event)
        (msg : String) (s1 : BBFillSensor.LoopState),
      BBFillSensor.runLoop cfg BBFillSensor.initState front =
        (s1, BBFillSensor.ExitKind.outOfEvents, []) →
      BBFillSensor.runLoop cfg BBFillSensor.initState
          (front ++ BBFillSensor.Event.error msg :: rest) =
        (s1, BBFillSensor.ExitKind.errored msg, rest) ∧
      (BBFillSensor.runProgram cfg
        (front ++ BBFillSensor.Event.error msg :: rest)).printedError = some msg ∧
      (BBFillSensor.runProgram cfg
        (front ++ BBFillSensor.Event.error msg :: rest)).closeCalls = 1 ∧
      (BBFillSensor.runProgram cfg
        (front ++ BBFillSensor.Event.error msg :: rest)).finalData = s1.data) := by
  constructor
  · intro cfg front rest msg s1 hfront
    have hrun : PressureTest.runLoop cfg PressureTest.initState
        (front ++ PressureTest.Event.error msg :: rest) =
        (s1, PressureTest.ExitKind.errored msg, rest) := by
      rw [PressureTest.runLoop_append cfg (PressureTest.Event.error msg :: rest) front
        PressureTest.initState s1 hfront]
      simp [PressureTest.runLoop, PressureTest.loopStep]
    rw [PressureTest.runProgram_eq cfg _ s1 _ _ hrun]
    exact ⟨hrun, rfl, rfl, rfl⟩
  · intro cfg front rest msg s1 hfront
    have hrun : BBFillSensor.runLoop cfg BBFillSensor.initState
        (front ++ BBFillSensor.Event.error msg :: rest) =
        (s1, BBFillSensor.ExitKind.errored msg, rest) := by
      rw [BBFillSensor.bb_runLoop_append cfg (BBFillSensor.Event.error msg :: rest) front
        BBFillSensor.initState s1 hfront]
      simp [BBFillSensor.runLoop, BBFillSensor.loopStep]
    rw [BBFillSensor.bb_runProgram_eq cfg _ s1 _ _ hrun]
    exact ⟨hrun, rfl, rfl, rfl⟩

/-- Witness for C6: each script with an exception as the very first loop
event. -/
theorem claim_C6_witness :
    (PressureTest.runProgram (PressureTest.configOf (some "out") none none)
      ([] ++ PressureTest.Event.error "device read failed" :: [])).printedError =
      some "device read failed" ∧
    (BBFillSensor.runProgram (BBFillSensor.configOf (some "out") none none)
      ([] ++ BBFillSensor.Event.error "device read failed" :: [])).printedError =
      some "device read failed" :=
  ⟨(claim_C6.1 _ [] [] "device read failed" PressureTest.initState rfl).2.1,
    (claim_C6.2 _ [] [] "device read failed" BBFillSensor.initState rfl).2.1⟩

/-- C7 as amended: the written rows are exactly the buffered records in
acquisition order (never reordered or deduplicated, witnessed by the
iteration-counter column `j - 1` in buffer row `j`); each data row has 6
cells laid out `[time, iteration, AIN0, pressure, AIN2, flow rate]`, while
both header lines name only 5 comma-delimited columns (the iteration column
is missing), so the header does not match the data columns one for one. -/
theorem claim_C7 (cfg : PressureTest.Config) (events : List PressureTest.Event)
    (hfn : cfg.filenameSupplied = true) :
    ∃ f, (PressureTest.runProgram cfg events).fileWritten = some f ∧
      f.rows = ((PressureTest.runProgram cfg events).finalData.drop 1).map
        PressureTest.rowCells ∧
      (∀ row ∈ f.rows, row.length = 6) ∧
      (∀ j, j < (PressureTest.runProgram cfg events).finalData.length →
        ((PressureTest.runProgram cfg events).finalData.getD j PressureTest.zeroRow).iter =
          ((j - 1 : ℕ) : ℚ)) ∧
      Cmp.cellCount PressureTest.dataLabels = 5 ∧
      Cmp.cellCount PressureTest.dataUnits = 5 := by
  rcases hrun : PressureTest.runLoop cfg PressureTest.initState events with ⟨s1, k, rest⟩
  have hinv := PressureTest.runLoop_inv cfg events PressureTest.initState s1 k rest hrun
    (PressureTest.inv_init cfg)
  rw [PressureTest.runProgram_eq cfg events s1 k rest hrun]
  refine ⟨Cmp.savetxt ((s1.data.drop 1).map PressureTest.rowCells)
    PressureTest.headerString, ?_, rfl, ?_, ?_, by decide, by decide⟩
  · simp [hfn]
  · intro row hrow
    obtain ⟨r, -, rfl⟩ := List.mem_map.mp hrow
    rfl
  · exact hinv.2.2.2.2

/-- Counterexample to C7 as stated: in a concrete run the written data row
has 6 cells but the labels header line only names 5 columns, so the columns
cannot match the header labels column for column. -/
theorem claim_C7_counterexample :
    ((PressureTest.runProgram (PressureTest.configOf (some "out") none none)
        [PressureTest.Event.tick 1 2 3]).fileWritten.map
      (fun f => (f.rows.getD 0 []).length)) ≠
      some (Cmp.cellCount PressureTest.dataLabels) := by
  intro h
  have h6 : ((PressureTest.runProgram (PressureTest.configOf (some "out") none none)
        [PressureTest.Event.tick 1 2 3]).fileWritten.map
      (fun f => (f.rows.getD 0 []).length)) = some 6 := by
    norm_num [PressureTest.runProgram, PressureTest.runLoop, PressureTest.loopStep,
      PressureTest.initState, PressureTest.configOf, PressureTest.loopAmountDefault,
      PressureTest.defaultSampleRate, PressureTest.rowCells, Cmp.savetxt]
  have h5 : Cmp.cellCount PressureTest.dataLabels = 5 := by decide
  rw [h6, h5] at h
  simp at h

/-- Witness for C7 as amended: a concrete run with an output name. -/
theorem claim_C7_witness :
    ∃ f, (PressureTest.runProgram (PressureTest.configOf (some "out") none none)
        [PressureTest.Event.tick 1 2 3]).fileWritten = some f ∧
      f.rows = ((PressureTest.runProgram (PressureTest.configOf (some "out") none none)
        [PressureTest.Event.tick 1 2 3]).finalData.drop 1).map PressureTest.rowCells ∧
      (∀ row ∈ f.rows, row.length = 6) ∧
      (∀ j, j < (PressureTest.runProgram (PressureTest.configOf (some "out") none none)
          [PressureTest.Event.tick 1 2 3]).finalData.length →
        ((PressureTest.runProgram (PressureTest.configOf (some "out") none none)
            [PressureTest.Event.tick 1 2 3]).finalData.getD j PressureTest.zeroRow).iter =
          ((j - 1 : ℕ) : ℚ)) ∧
      Cmp.cellCount PressureTest.dataLabels = 5 ∧
      Cmp.cellCount PressureTest.dataUnits = 5 :=
  claim_C7 (PressureTest.configOf (some "out") none none)
    [PressureTest.Event.tick 1 2 3] rfl

/-- C8: in bb_fill_sensor, for every response entered at the
pre-existing-file prompt — including the affirmative responses `"Y"` and
`"y"` — the program exits before acquisition starts: the test
`response is not ("Y" and "y")` compares the freshly read input string by
object identity against `"y"` (Python `and` of two truthy strings yields the
right operand), and a freshly read string is never the same object as a
compiled literal, so the `is not` test always succeeds and `sys.exit()`
runs. -/
theorem claim_C8 (fn response : String) :
    BBFillSensor.set_filename fn true response = none := by
  simp [BBFillSensor.set_filename, Cmp.pyIsFreshLit]

/-- C9: in bb_fill_sensor the existence check tests
`"data/" + filename + ".csv"` while the file is written to
`filename + ".csv"`; these paths differ for every filename, so when nothing
exists at the checked path the confirmation prompt is not shown even if a
file sits at the actual write destination (it is then overwritten
silently). -/
theorem claim_C9 (f : String) (onDisk : String → Bool) :
    BBFillSensor.checkedPath f ≠ BBFillSensor.writePath f ∧
    (onDisk (BBFillSensor.checkedPath f) = false →
      BBFillSensor.promptShown onDisk f = false) := by
  constructor
  · intro h
    have hlen := congrArg String.length h
    simp only [BBFillSensor.checkedPath, BBFillSensor.writePath,
      BBFillSensor.dataDirectory, String.length_append] at hlen
    have h5 : ("data/" : String).length = 5 := by decide
    omega
  · intro h
    simpa [BBFillSensor.promptShown] using h

/-- Witness for C9: filename `"run1"` with a disk holding exactly the write
destination `"run1.csv"`: the checked path differs and no prompt is shown. -/
theorem claim_C9_witness :
    BBFillSensor.checkedPath "run1" ≠ BBFillSensor.writePath "run1" ∧
    BBFillSensor.promptShown (fun p => p == BBFillSensor.writePath "run1") "run1" = false :=
  ⟨(claim_C9 "run1" (fun p => p == BBFillSensor.writePath "run1")).1,
    (claim_C9 "run1" (fun p => p == BBFillSensor.writePath "run1")).2 (by decide)⟩

/-- C10: with no third argument, pressure_test's loop bound is the finite
value 30/50/1E-3 = 600, computed from the default sample rate before
argument parsing and unaffected by a supplied second argument; under
gate-clearing timestamps the run then stops after exactly 600 accepted
samples instead of running until interrupted. -/
theorem claim_C10 :
    PressureTest.loopAmountDefault = 600 ∧
    (∀ (fnArg : Option String) (srArg : Option ℤ),
      (PressureTest.configOf fnArg srArg none).loopAmount = 600) ∧
    (∀ (fnArg : Option String) (srArg : Option ℤ) (ts : List (ℚ × ℚ × ℚ)),
      600 ≤ ts.length →
      List.Chain'
        (fun a b => b - a >
          (PressureTest.configOf fnArg srArg none).sampleRate * (1 / 1000))
        (0 :: ts.map (fun x => x.1)) →
      (PressureTest.runProgram (PressureTest.configOf fnArg srArg none)
          (ts.map PressureTest.tickOf)).exitKind = PressureTest.ExitKind.finished ∧
      (PressureTest.runProgram (PressureTest.configOf fnArg srArg none)
          (ts.map PressureTest.tickOf)).accepted = 600) := by
  have hdef : PressureTest.loopAmountDefault = 600 := by
    norm_num [PressureTest.loopAmountDefault, PressureTest.defaultSampleRate]
  refine ⟨hdef, ?_, ?_⟩
  · intro fnArg srArg
    simp [PressureTest.configOf, hdef]
  · intro fnArg srArg ts hlen hchain
    have hla : (PressureTest.configOf fnArg srArg none).loopAmount = ((600 : ℕ) : ℚ) := by
      simp [PressureTest.configOf, hdef]
    obtain ⟨s1, heq, hi1, -⟩ :=
      PressureTest.runLoop_ticks _ 600 hla ts PressureTest.initState
        (by norm_num [PressureTest.initState])
        (by simpa [PressureTest.initState] using hlen)
        hchain
    rw [PressureTest.runProgram_eq _ _ s1 _ _ heq]
    exact ⟨rfl, hi1⟩

/-- Witness for C10: 600 synthetic ticks at 1 s intervals with no arguments
supplied. -/
theorem claim_C10_witness :
    (PressureTest.runProgram (PressureTest.configOf none none none)
      (((List.range 600).map (fun (j : ℕ) => ((j : ℚ) + 1, (0 : ℚ), (0 : ℚ)))).map
        PressureTest.tickOf)).accepted = 600 := by
  refine (claim_C10.2.2 none none _ (by simp) ?_).2
  have hmap : (((List.range 600).map (fun (j : ℕ) => ((j : ℚ) + 1, (0 : ℚ), (0 : ℚ)))).map
      (fun x => x.1)) = (List.range 600).map (fun (j : ℕ) => (j : ℚ) + 1) := by
    simp [List.map_map, Function.comp_def]
  rw [hmap]
  exact chain_unit_gaps 600
